import Mathlib

/-!
# Verification of the finmate analytics engine

Shallow embedding of the analytics engine of the finmate personal-finance
application (source: src/Create Editable Finance App UI/src/utils/analytics.ts,
transaction type: src/contexts/TransactionContext.tsx) together with proofs of
the specified properties.

Modelling conventions:
* JS numbers are modelled as exact rationals; the health-score standard
  deviation (Math.sqrt) is modelled over the reals.
* A JS Date is modelled at day granularity by its proleptic-Gregorian epoch
  day number (days since 1970-01-01).  All period windows in the source set
  their start to 00:00:00.000 and their end to 23:59:59.999 of a day, and
  transaction dates parse to a fixed time of day, so timestamp-interval
  membership coincides with day-interval membership.
* new Date(y, m, d) normalization of out-of-range month/day arguments is
  linear in months and days; mkDay reproduces it with floor division
  (Lean integer division by a positive literal is floor division).
* A JS Map iterated with entries() yields insertion order with in-place
  updates; it is modelled as an association list updated in place.
* Array.prototype.sort with a numeric comparator is a stable sort; it is
  modelled by a stable insertion sort on the comparator key.
* The UI-facing label strings produced by toLocaleDateString are modelled by
  the underlying (year, month) pair; toFixed description strings of health
  factors are not modelled (no claim mentions them).
* The hidden call to new Date() for the current date is made an explicit
  parameter of every query, as the specification requires for testing.
-/

/-- The transaction type tag, modelling the TS union {income, expense}. -/
inductive TxType where
  | income : TxType
  | expense : TxType
deriving DecidableEq

/-- A calendar date as parsed from the transaction's ISO date string:
year, zero-based month, one-based day of month. -/
structure SDate where
  year : ℤ
  month : ℤ
  day : ℤ
deriving DecidableEq

/-- Transaction, from TransactionContext.tsx. -/
structure Transaction where
  id : String
  amount : ℚ
  category : String
  description : String
  date : SDate
  type : TxType
  source : Option String := none
deriving DecidableEq

/-- CategorySummary, from analytics.ts. -/
structure CategorySummary where
  category : String
  amount : ℚ
  count : ℕ
  percentage : ℚ
deriving DecidableEq

/-- TimeBasedAnalytics (the PeriodSummary of the spec), from analytics.ts. -/
structure TimeBasedAnalytics where
  period : String
  totalIncome : ℚ
  totalExpenses : ℚ
  netAmount : ℚ
  transactionCount : ℕ
  topCategories : List CategorySummary
  averageDaily : ℚ
  savingsRate : ℚ
deriving DecidableEq

/-- The growth record of a MonthlyComparison. -/
structure GrowthRates where
  income : ℚ
  expenses : ℚ
  savings : ℚ
deriving DecidableEq

/-- MonthlyComparison (the PeriodComparison of the spec), from analytics.ts. -/
structure MonthlyComparison where
  current : TimeBasedAnalytics
  previous : TimeBasedAnalytics
  growth : GrowthRates
deriving DecidableEq

/-- One entry of getSpendingTrends: the month label is modelled by the
normalized (year, month) pair it renders. -/
structure TrendPoint where
  year : ℤ
  month : ℤ
  income : ℚ
  expenses : ℚ
  savings : ℚ
deriving DecidableEq

/-- One entry of getCategoryComparison. -/
structure CategoryDelta where
  category : String
  currentMonth : ℚ
  previousMonth : ℚ
  change : ℚ
deriving DecidableEq

/-- The qualitative impact tag of a health-score factor. -/
inductive Impact where
  | positive : Impact
  | neutral : Impact
  | negative : Impact
deriving DecidableEq

/-- One factor of the financial health score (description string not
modelled). -/
structure HealthFactor where
  name : String
  score : ℝ
  impact : Impact

/-- Result of getFinancialHealthScore. -/
structure HealthScore where
  score : ℤ
  factors : List HealthFactor

/-! ## Calendar arithmetic (proleptic Gregorian, as implemented by JS Date) -/

/-- Gregorian leap-year rule implemented by JS Date. -/
def isLeapYear (y : ℤ) : Bool :=
  (y % 4 == 0 && y % 100 != 0) || y % 400 == 0

/-- Length of zero-based month m of year y (m expected in [0, 11]). -/
def daysInMonth (y m : ℤ) : ℤ :=
  if m = 1 then (if isLeapYear y then 29 else 28)
  else if m = 3 ∨ m = 5 ∨ m = 8 ∨ m = 10 then 30 else 31

/-- Days of year y strictly before zero-based month n. -/
def daysBeforeMonthN (y : ℤ) : ℕ → ℤ
  | 0 => 0
  | n + 1 => daysBeforeMonthN y n + daysInMonth y (n : ℤ)

/-- Days of year y strictly before zero-based month m. -/
def daysBeforeMonth (y m : ℤ) : ℤ :=
  daysBeforeMonthN y m.toNat

/-- Epoch day number of January 1 of year y (day 0 = 1970-01-01);
the standard days-from-civil formula with floor divisions. -/
def yearStartDay (y : ℤ) : ℤ :=
  365 * y + (y - 1) / 4 - (y - 1) / 100 + (y - 1) / 400 - 719527

/-- Epoch day number of the calendar point new Date(y, m, d): month and day
arguments outside their ranges roll over exactly as in JS. -/
def mkDay (y m d : ℤ) : ℤ :=
  yearStartDay (y + m / 12) + daysBeforeMonth (y + m / 12) (m % 12) + (d - 1)

/-- Epoch day number of a parsed transaction date. -/
def dateDay (dt : SDate) : ℤ :=
  mkDay dt.year dt.month dt.day

/-- Math.ceil((endMs - startMs) / 86400000) where endMs is 23:59:59.999 of
day en and startMs is 00:00:00.000 of day s, as computed by the half-year
queries. -/
def msCeilDays (s en : ℤ) : ℤ :=
  -((-(((en + 1) * 86400000 - 1) - s * 86400000)) / 86400000)

/-! ## Stable descending sort (Array.prototype.sort with comparator
(a, b) => key(b) - key(a)) -/

/-- Insert x into a list sorted descending by key, after every element whose
key is strictly greater (stability: x precedes equal keys of later input
elements). -/
def insertDescBy {α β : Type} [LinearOrder β] (key : α → β) (x : α) :
    List α → List α
  | [] => [x]
  | y :: ys => if key x < key y then y :: insertDescBy key x ys else x :: y :: ys

/-- Stable sort descending by key. -/
def sortDescBy {α β : Type} [LinearOrder β] (key : α → β) : List α → List α
  | [] => []
  | x :: xs => insertDescBy key x (sortDescBy key xs)

/-! ## Aggregation helpers -/

/-- reduce((sum, t) => sum + Math.abs(t.amount), 0). -/
def absSum (txs : List Transaction) : ℚ :=
  (txs.map (fun t => |t.amount|)).sum

/-- Filter predicate t.type === income. -/
def isIncome (t : Transaction) : Bool :=
  t.type == TxType.income

/-- Filter predicate t.type === expense. -/
def isExpense (t : Transaction) : Bool :=
  t.type == TxType.expense

/-- One step of the category Map construction: Map.set(t.category,
{amount: existing.amount + Math.abs(t.amount), count: existing.count + 1}),
updating an existing key in place (insertion order preserved) or appending a
new one. -/
def bumpCategory (m : List (String × ℚ × ℕ)) (t : Transaction) :
    List (String × ℚ × ℕ) :=
  match m with
  | [] => [(t.category, |t.amount|, 1)]
  | e :: rest =>
    if e.1 = t.category then (e.1, e.2.1 + |t.amount|, e.2.2 + 1) :: rest
    else e :: bumpCategory rest t

/-- calculatePeriodAnalytics from analytics.ts. -/
def calculatePeriodAnalytics (transactions : List Transaction)
    (periodName : String) (days : ℚ) : TimeBasedAnalytics :=
  let income := absSum (transactions.filter isIncome)
  let expenses := absSum (transactions.filter isExpense)
  let netAmount := income - expenses
  let savingsRate := if income > 0 then netAmount / income * 100 else 0
  let averageDaily := expenses / days
  let categoryMap := (transactions.filter isExpense).foldl bumpCategory []
  let topCategories := (sortDescBy (fun c => c.amount)
    (categoryMap.map (fun ent =>
      { category := ent.1, amount := ent.2.1, count := ent.2.2,
        percentage := if expenses > 0 then ent.2.1 / expenses * 100 else 0
        : CategorySummary }))).take 5
  { period := periodName, totalIncome := income, totalExpenses := expenses,
    netAmount := netAmount, transactionCount := transactions.length,
    topCategories := topCategories, averageDaily := averageDaily,
    savingsRate := savingsRate }

/-! ## The engine -/

/-- The engine state: the snapshot held in this.transactions. -/
structure AnalyticsEngine where
  transactions : List Transaction

/-- The constructor: this.transactions = transactions.sort(by date
descending).  JS Array.prototype.sort sorts the caller's array in place and
returns that same array, so the snapshot aliases the input. -/
def AnalyticsEngine.init (transactions : List Transaction) : AnalyticsEngine :=
  ⟨sortDescBy (fun t => dateDay t.date) transactions⟩

/-- The caller's view of its own array after the constructor ran: the sort
happened in place, so the caller's array is the sorted one. -/
def callerArrayAfterInit (transactions : List Transaction) : List Transaction :=
  sortDescBy (fun t => dateDay t.date) transactions

/-- getTransactionsInPeriod: date-window filter (inclusive bounds). -/
def AnalyticsEngine.getTransactionsInPeriod (e : AnalyticsEngine)
    (startDay endDay : ℤ) : List Transaction :=
  e.transactions.filter
    (fun t => decide (startDay ≤ dateDay t.date ∧ dateDay t.date ≤ endDay))

/-- Start day of the Sunday-anchored week of now:
now.getDate() - now.getDay(); getDay of epoch day D is (D + 4) mod 7. -/
def weekStartDay (now : SDate) : ℤ :=
  dateDay now - (dateDay now + 4) % 7

/-- First day of the current calendar month (new Date(y, m, 1)). -/
def monthStartDay (now : SDate) : ℤ :=
  mkDay now.year now.month 1

/-- Last day of the current calendar month (new Date(y, m + 1, 0)). -/
def monthEndDay (now : SDate) : ℤ :=
  mkDay now.year (now.month + 1) 0

/-- endOfMonth.getDate(): the number of days of the current month. -/
def monthlyDays (now : SDate) : ℤ :=
  monthEndDay now - monthStartDay now + 1

/-- First day of the current calendar half (new Date(y, floor(m/6)*6, 1)). -/
def halfStartDay (now : SDate) : ℤ :=
  mkDay now.year (now.month / 6 * 6) 1

/-- Last day of the current calendar half (new Date(y, floor(m/6)*6 + 6, 0)). -/
def halfEndDay (now : SDate) : ℤ :=
  mkDay now.year (now.month / 6 * 6 + 6) 0

/-- The half-year day count: Math.ceil over the millisecond span. -/
def halfYearDays (now : SDate) : ℤ :=
  msCeilDays (halfStartDay now) (halfEndDay now)

/-- January 1 of the current year. -/
def annualStartDay (now : SDate) : ℤ :=
  mkDay now.year 0 1

/-- December 31 of the current year. -/
def annualEndDay (now : SDate) : ℤ :=
  mkDay now.year 11 31

/-- The annual day count; the source's own leap test here is year % 4 == 0. -/
def annualDays (now : SDate) : ℤ :=
  if now.year % 4 = 0 then 366 else 365

/-- getWeeklyAnalytics. -/
def AnalyticsEngine.getWeeklyAnalytics (e : AnalyticsEngine) (now : SDate) :
    TimeBasedAnalytics :=
  calculatePeriodAnalytics
    (e.getTransactionsInPeriod (weekStartDay now) (weekStartDay now + 6))
    ("This Week") 7

/-- getMonthlyAnalytics; the day count passed is endOfMonth.getDate(), the
number of days in the current month. -/
def AnalyticsEngine.getMonthlyAnalytics (e : AnalyticsEngine) (now : SDate) :
    TimeBasedAnalytics :=
  calculatePeriodAnalytics
    (e.getTransactionsInPeriod (monthStartDay now) (monthEndDay now))
    ("This Month") ((monthlyDays now : ℤ) : ℚ)

/-- getHalfYearlyAnalytics. -/
def AnalyticsEngine.getHalfYearlyAnalytics (e : AnalyticsEngine) (now : SDate) :
    TimeBasedAnalytics :=
  calculatePeriodAnalytics
    (e.getTransactionsInPeriod (halfStartDay now) (halfEndDay now))
    ("This Half Year") ((halfYearDays now : ℤ) : ℚ)

/-- getAnnualAnalytics. -/
def AnalyticsEngine.getAnnualAnalytics (e : AnalyticsEngine) (now : SDate) :
    TimeBasedAnalytics :=
  calculatePeriodAnalytics
    (e.getTransactionsInPeriod (annualStartDay now) (annualEndDay now))
    ("This Year") ((annualDays now : ℤ) : ℚ)

/-- The growth-percentage helper defined (identically) inside each of the
four comparison queries. -/
def calculateGrowth (current previous : ℚ) : ℚ :=
  if previous = 0 then (if current > 0 then 100 else 0)
  else (current - previous) / previous * 100

/-- Builds the growth record shared by all four comparison queries. -/
def growthOf (current previous : TimeBasedAnalytics) : GrowthRates :=
  { income := calculateGrowth current.totalIncome previous.totalIncome,
    expenses := calculateGrowth current.totalExpenses previous.totalExpenses,
    savings := calculateGrowth current.netAmount previous.netAmount }

/-- getMonthlyComparison. -/
def AnalyticsEngine.getMonthlyComparison (e : AnalyticsEngine) (now : SDate) :
    MonthlyComparison :=
  let sc := mkDay now.year now.month 1
  let ec := mkDay now.year (now.month + 1) 0
  let sp := mkDay now.year (now.month - 1) 1
  let ep := mkDay now.year now.month 0
  let current := calculatePeriodAnalytics (e.getTransactionsInPeriod sc ec)
    ("Current Month") ((ec - sc + 1 : ℤ) : ℚ)
  let previous := calculatePeriodAnalytics (e.getTransactionsInPeriod sp ep)
    ("Previous Month") ((ep - sp + 1 : ℤ) : ℚ)
  { current := current, previous := previous, growth := growthOf current previous }

/-- getWeeklyComparison. -/
def AnalyticsEngine.getWeeklyComparison (e : AnalyticsEngine) (now : SDate) :
    MonthlyComparison :=
  let sc := weekStartDay now
  let sp := sc - 7
  let current := calculatePeriodAnalytics (e.getTransactionsInPeriod sc (sc + 6))
    ("Current Week") 7
  let previous := calculatePeriodAnalytics (e.getTransactionsInPeriod sp (sp + 6))
    ("Previous Week") 7
  { current := current, previous := previous, growth := growthOf current previous }

/-- getHalfYearlyComparison; the previous half wraps into the prior year when
the current half starts at month 0. -/
def AnalyticsEngine.getHalfYearlyComparison (e : AnalyticsEngine) (now : SDate) :
    MonthlyComparison :=
  let currentHalfStart := now.month / 6 * 6
  let sc := mkDay now.year currentHalfStart 1
  let ec := mkDay now.year (currentHalfStart + 6) 0
  let prevHalfStart := currentHalfStart - 6
  let py := if prevHalfStart < 0 then now.year - 1 else now.year
  let pm := if prevHalfStart < 0 then prevHalfStart + 12 else prevHalfStart
  let sp := mkDay py pm 1
  let ep := mkDay py (pm + 6) 0
  let current := calculatePeriodAnalytics (e.getTransactionsInPeriod sc ec)
    ("Current Half Year") ((msCeilDays sc ec : ℤ) : ℚ)
  let previous := calculatePeriodAnalytics (e.getTransactionsInPeriod sp ep)
    ("Previous Half Year") ((msCeilDays sp ep : ℤ) : ℚ)
  { current := current, previous := previous, growth := growthOf current previous }

/-- getYearlyComparison. -/
def AnalyticsEngine.getYearlyComparison (e : AnalyticsEngine) (now : SDate) :
    MonthlyComparison :=
  let sc := mkDay now.year 0 1
  let ec := mkDay now.year 11 31
  let sp := mkDay (now.year - 1) 0 1
  let ep := mkDay (now.year - 1) 11 31
  let current := calculatePeriodAnalytics (e.getTransactionsInPeriod sc ec)
    ("Current Year") (if now.year % 4 = 0 then 366 else 365)
  let previous := calculatePeriodAnalytics (e.getTransactionsInPeriod sp ep)
    ("Previous Year") (if (now.year - 1) % 4 = 0 then 366 else 365)
  { current := current, previous := previous, growth := growthOf current previous }

/-- One iteration of the getSpendingTrends loop, for the month given by
new Date(y, m, 1) (m may be negative; normalization as in JS). -/
def trendFor (e : AnalyticsEngine) (y m : ℤ) : TrendPoint :=
  let s := mkDay y m 1
  let en := mkDay y (m + 1) 0
  let monthTransactions := e.getTransactionsInPeriod s en
  let income := absSum (monthTransactions.filter isIncome)
  let expenses := absSum (monthTransactions.filter isExpense)
  { year := y + m / 12, month := m % 12,
    income := income, expenses := expenses, savings := income - expenses }

/-- getSpendingTrends: the loop runs i = 5, 4, ..., 0 pushing the month
now.getMonth() - i, so the result is the 6 trailing months oldest first. -/
def AnalyticsEngine.getSpendingTrends (e : AnalyticsEngine) (now : SDate) :
    List TrendPoint :=
  (List.range 6).map (fun j => trendFor e now.year (now.month - (5 - (j : ℤ))))

/-- First-occurrence deduplication, modelling new Set(iteration order). -/
def dedupKeep (seen : List String) : List String → List String
  | [] => []
  | c :: rest =>
    if c ∈ seen then dedupKeep seen rest
    else c :: dedupKeep (c :: seen) rest

/-- The zero-guarded change expression of getCategoryComparison
(previousAmount > 0 branch, else the from-zero sentinel). -/
def categoryChange (currentAmount previousAmount : ℚ) : ℚ :=
  if previousAmount > 0 then (currentAmount - previousAmount) / previousAmount * 100
  else if currentAmount > 0 then 100 else 0

/-- getCategoryComparison. -/
def AnalyticsEngine.getCategoryComparison (e : AnalyticsEngine) (now : SDate) :
    List CategoryDelta :=
  let sc := mkDay now.year now.month 1
  let ec := mkDay now.year (now.month + 1) 0
  let sp := mkDay now.year (now.month - 1) 1
  let ep := mkDay now.year now.month 0
  let currentTransactions := (e.getTransactionsInPeriod sc ec).filter isExpense
  let previousTransactions := (e.getTransactionsInPeriod sp ep).filter isExpense
  let allCategories := dedupKeep []
    (currentTransactions.map (fun t => t.category) ++
      previousTransactions.map (fun t => t.category))
  sortDescBy (fun d => d.currentMonth)
    (allCategories.map (fun category =>
      let currentAmount := absSum
        (currentTransactions.filter (fun t => t.category == category))
      let previousAmount := absSum
        (previousTransactions.filter (fun t => t.category == category))
      { category := category, currentMonth := currentAmount,
        previousMonth := previousAmount,
        change := categoryChange currentAmount previousAmount }))

/-! ## Financial health score -/

/-- calculateVariation: coefficient of variation in percent, 0 for an empty
series or a non-positive mean; Math.sqrt is modelled by Real.sqrt. -/
noncomputable def calculateVariation (values : List ℚ) : ℝ :=
  if values.length = 0 then 0
  else
    let mean : ℚ := values.sum / (values.length : ℚ)
    let variance : ℚ := ((values.map (fun v => (v - mean) ^ 2)).sum) / (values.length : ℚ)
    let standardDeviation : ℝ := Real.sqrt ((variance : ℚ) : ℝ)
    if mean > 0 then standardDeviation / ((mean : ℚ) : ℝ) * 100 else 0

/-- calculateCategoryBalance: banded score from the largest category
percentage (Math.max over the spread of percentages). -/
def calculateCategoryBalance (categories : List CategorySummary) : ℚ :=
  match categories with
  | [] => 100
  | c :: rest =>
    let maxPercentage := (rest.map (fun x => x.percentage)).foldl max c.percentage
    if maxPercentage > 50 then 30
    else if maxPercentage > 40 then 50
    else if maxPercentage > 30 then 70
    else 90

/-- The Savings Rate sub-score: Math.min(savingsRate * 2, 100); note the
source applies no lower clamp. -/
def savingsScoreOf (e : AnalyticsEngine) (now : SDate) : ℚ :=
  min ((e.getMonthlyAnalytics now).savingsRate * 2) 100

/-- The Spending Consistency sub-score:
Math.max(0, 100 - variation of the 6-month expense series). -/
noncomputable def consistencyScoreOf (e : AnalyticsEngine) (now : SDate) : ℝ :=
  max 0 (100 - calculateVariation ((e.getSpendingTrends now).map (fun t => t.expenses)))

/-- The Income Growth sub-score:
Math.min(Math.max(50 + monthly income growth, 0), 100). -/
def incomeGrowthScoreOf (e : AnalyticsEngine) (now : SDate) : ℚ :=
  min (max (50 + (e.getMonthlyComparison now).growth.income) 0) 100

/-- The Expense Balance sub-score: calculateCategoryBalance applied to the
current month's topCategories. -/
def categoryBalanceOf (e : AnalyticsEngine) (now : SDate) : ℚ :=
  calculateCategoryBalance (e.getMonthlyAnalytics now).topCategories

/-- getFinancialHealthScore; Math.round(x) is floor(x + 1/2). -/
noncomputable def AnalyticsEngine.getFinancialHealthScore (e : AnalyticsEngine)
    (now : SDate) : HealthScore :=
  let savingsScore : ℝ := ((savingsScoreOf e now : ℚ) : ℝ)
  let consistencyScore : ℝ := consistencyScoreOf e now
  let incomeGrowthScore : ℝ := ((incomeGrowthScoreOf e now : ℚ) : ℝ)
  let categoryBalance : ℝ := ((categoryBalanceOf e now : ℚ) : ℝ)
  let incomeGrowth := (e.getMonthlyComparison now).growth.income
  let totalScore := savingsScore * 0.3 + consistencyScore * 0.25 +
    incomeGrowthScore * 0.2 + categoryBalance * 0.25
  { score := ⌊totalScore + 1 / 2⌋,
    factors := [
      { name := "Savings Rate", score := savingsScore,
        impact := if savingsScoreOf e now ≥ 60 then Impact.positive
          else if savingsScoreOf e now ≥ 30 then Impact.neutral
          else Impact.negative },
      { name := "Spending Consistency", score := consistencyScore,
        impact := if consistencyScore ≥ 70 then Impact.positive
          else if consistencyScore ≥ 40 then Impact.neutral else Impact.negative },
      { name := "Income Growth", score := incomeGrowthScore,
        impact := if incomeGrowth > 5 then Impact.positive
          else if incomeGrowth < -5 then Impact.negative
          else Impact.neutral },
      { name := "Expense Balance", score := categoryBalance,
        impact := if categoryBalanceOf e now ≥ 70 then Impact.positive
          else if categoryBalanceOf e now ≥ 40 then Impact.neutral
          else Impact.negative } ] }

/-! ## Concrete sample data used by witnesses and counterexamples -/

/-- Sample income transaction (June 2024) for witnesses. -/
def txIncomeJune : Transaction :=
  ⟨"t1", 200, "Salary", "pay", ⟨2024, 5, 10⟩, TxType.income, none⟩

/-- Sample May/June 2024 transactions for the C10 witness: May nets -200,
June nets 400. -/
def txMayIncome : Transaction :=
  ⟨"m1", 100, "Salary", "pay", ⟨2024, 4, 3⟩, TxType.income, none⟩

def txMayExpense : Transaction :=
  ⟨"m2", 300, "Food", "meals", ⟨2024, 4, 10⟩, TxType.expense, none⟩

def txJunIncome : Transaction :=
  ⟨"m3", 500, "Salary", "pay", ⟨2024, 5, 5⟩, TxType.income, none⟩

def txJunExpense : Transaction :=
  ⟨"m4", 100, "Food", "meals", ⟨2024, 5, 8⟩, TxType.expense, none⟩

/-- Sample two-category June 2024 expenses for the C4 witness. -/
def txFood : Transaction :=
  ⟨"f1", 300, "Food", "meals", ⟨2024, 5, 10⟩, TxType.expense, none⟩

def txTravel : Transaction :=
  ⟨"f2", 100, "Travel", "trip", ⟨2024, 5, 12⟩, TxType.expense, none⟩

/-- Two transactions in ascending date order, for C7. -/
def txOldJan : Transaction :=
  ⟨"a", 10, "Food", "meals", ⟨2024, 0, 1⟩, TxType.expense, none⟩

def txNewFeb : Transaction :=
  ⟨"b", 20, "Food", "meals", ⟨2024, 1, 1⟩, TxType.expense, none⟩

/-- The running amount total of the category map. -/
def mapAmtSum (m : List (String × ℚ × ℕ)) : ℚ :=
  (m.map (fun e => e.2.1)).sum

/-- C2 counterexample data: one 300 expense in each month Jan-Jun 2024 and a
single June income of 100, so the June savings rate is -200%. -/
def cxJanE : Transaction :=
  ⟨"c1", 300, "Food", "meals", ⟨2024, 0, 10⟩, TxType.expense, none⟩

def cxFebE : Transaction :=
  ⟨"c2", 300, "Food", "meals", ⟨2024, 1, 10⟩, TxType.expense, none⟩

def cxMarE : Transaction :=
  ⟨"c3", 300, "Food", "meals", ⟨2024, 2, 10⟩, TxType.expense, none⟩

def cxAprE : Transaction :=
  ⟨"c4", 300, "Food", "meals", ⟨2024, 3, 10⟩, TxType.expense, none⟩

def cxMayE : Transaction :=
  ⟨"c5", 300, "Food", "meals", ⟨2024, 4, 10⟩, TxType.expense, none⟩

def cxJunE : Transaction :=
  ⟨"c6", 300, "Food", "meals", ⟨2024, 5, 10⟩, TxType.expense, none⟩

def cxJunI : Transaction :=
  ⟨"c7", 100, "Salary", "pay", ⟨2024, 5, 5⟩, TxType.income, none⟩

/-- The C2 counterexample transaction list. -/
def cxTxs : List Transaction :=
  [cxJanE, cxFebE, cxMarE, cxAprE, cxMayE, cxJunE, cxJunI]

/-! ## Lemmas: the stable descending sort -/

lemma insertDescBy_perm {α β : Type} [LinearOrder β] (key : α → β) (x : α)
    (l : List α) : (insertDescBy key x l).Perm (x :: l) := by
  induction l with
  | nil => exact List.Perm.refl _
  | cons y ys ih =>
    rw [insertDescBy]
    by_cases h : key x < key y
    · rw [if_pos h]
      exact (ih.cons y).trans (List.Perm.swap x y ys)
    · rw [if_neg h]

lemma sortDescBy_perm {α β : Type} [LinearOrder β] (key : α → β)
    (l : List α) : (sortDescBy key l).Perm l := by
  induction l with
  | nil => exact List.Perm.refl _
  | cons x xs ih =>
    rw [sortDescBy]
    exact (insertDescBy_perm key x (sortDescBy key xs)).trans (ih.cons x)

lemma mem_insertDescBy {α β : Type} [LinearOrder β] {key : α → β} {x z : α}
    {l : List α} (h : z ∈ insertDescBy key x l) : z = x ∨ z ∈ l := by
  have := (insertDescBy_perm key x l).mem_iff.mp h
  simpa using this

lemma insertDescBy_sorted {α β : Type} [LinearOrder β] (key : α → β) (x : α)
    {l : List α} (h : l.Pairwise (fun a b => key b ≤ key a)) :
    (insertDescBy key x l).Pairwise (fun a b => key b ≤ key a) := by
  induction l with
  | nil => simp [insertDescBy]
  | cons y ys ih =>
    rw [List.pairwise_cons] at h
    rw [insertDescBy]
    by_cases hxy : key x < key y
    · rw [if_pos hxy]
      rw [List.pairwise_cons]
      refine ⟨fun z hz => ?_, ih h.2⟩
      rcases mem_insertDescBy hz with rfl | hz
      · exact le_of_lt hxy
      · exact h.1 z hz
    · rw [if_neg hxy]
      push_neg at hxy
      rw [List.pairwise_cons]
      refine ⟨fun z hz => ?_, List.pairwise_cons.mpr h⟩
      rcases List.mem_cons.mp hz with rfl | hz
      · exact hxy
      · exact le_trans (h.1 z hz) hxy

lemma sortDescBy_sorted {α β : Type} [LinearOrder β] (key : α → β)
    (l : List α) : (sortDescBy key l).Pairwise (fun a b => key b ≤ key a) := by
  induction l with
  | nil => simp [sortDescBy]
  | cons x xs ih => exact insertDescBy_sorted key x ih

/-! ## Lemmas: aggregation -/

lemma absSum_nonneg (l : List Transaction) : 0 ≤ absSum l := by
  apply List.sum_nonneg
  intro x hx
  rcases List.mem_map.mp hx with ⟨t, _, rfl⟩
  exact abs_nonneg _

lemma absSum_cons (t : Transaction) (l : List Transaction) :
    absSum (t :: l) = |t.amount| + absSum l := by
  simp [absSum]

/-- Sum of the filtered-and-mapped absolute amounts, re-expressed as a sum of
guarded terms over the whole list. -/
lemma absSum_filter_eq_sum_ite (p : Transaction → Bool) (l : List Transaction) :
    absSum (l.filter p) =
      (l.map (fun t => if p t then |t.amount| else 0)).sum := by
  induction l with
  | nil => simp [absSum]
  | cons t ts ih =>
    by_cases h : p t
    · simp [List.filter_cons, h, absSum_cons, ih]
    · simp [List.filter_cons, h, ih]


lemma bumpCategory_sum (m : List (String × ℚ × ℕ)) (t : Transaction) :
    mapAmtSum (bumpCategory m t) = mapAmtSum m + |t.amount| := by
  induction m with
  | nil => simp [bumpCategory, mapAmtSum]
  | cons e rest ih =>
    rw [bumpCategory]
    by_cases h : e.1 = t.category
    · rw [if_pos h]
      simp [mapAmtSum]
      ring
    · rw [if_neg h]
      simp only [mapAmtSum, List.map_cons, List.sum_cons] at ih ⊢
      rw [ih]
      ring

lemma bumpCategory_keys {m : List (String × ℚ × ℕ)} {t : Transaction}
    {x : String × ℚ × ℕ} (hx : x ∈ bumpCategory m t) :
    x.1 = t.category ∨ x.1 ∈ m.map Prod.fst := by
  induction m with
  | nil =>
    simp [bumpCategory] at hx
    left
    rw [hx]
  | cons e rest ih =>
    rw [bumpCategory] at hx
    by_cases h : e.1 = t.category
    · rw [if_pos h] at hx
      rcases List.mem_cons.mp hx with rfl | hx
      · left; exact h
      · right
        rw [List.map_cons]
        exact List.mem_cons.mpr (Or.inr (List.mem_map.mpr ⟨x, hx, rfl⟩))
    · rw [if_neg h] at hx
      rcases List.mem_cons.mp hx with rfl | hx
      · right; rw [List.map_cons]; exact List.mem_cons.mpr (Or.inl rfl)
      · rcases ih hx with h1 | h1
        · left; exact h1
        · right
          rw [List.map_cons]
          exact List.mem_cons.mpr (Or.inr h1)

lemma bumpCategory_nonneg {m : List (String × ℚ × ℕ)} {t : Transaction}
    (hm : ∀ x ∈ m, 0 ≤ x.2.1) : ∀ x ∈ bumpCategory m t, 0 ≤ x.2.1 := by
  induction m with
  | nil =>
    intro x hx
    simp [bumpCategory] at hx
    rw [hx]
    exact abs_nonneg _
  | cons e rest ih =>
    intro x hx
    rw [bumpCategory] at hx
    by_cases h : e.1 = t.category
    · rw [if_pos h] at hx
      rcases List.mem_cons.mp hx with rfl | hx
      · have h1 := hm e (by simp)
        have h2 := abs_nonneg t.amount
        show (0 : ℚ) ≤ e.2.1 + |t.amount|
        linarith
      · exact hm x (by simp [hx])
    · rw [if_neg h] at hx
      rcases List.mem_cons.mp hx with rfl | hx
      · exact hm x (by simp)
      · exact ih (fun y hy => hm y (by simp [hy])) x hx

lemma foldl_bump_sum (l : List Transaction) (m : List (String × ℚ × ℕ)) :
    mapAmtSum (l.foldl bumpCategory m) = mapAmtSum m + absSum l := by
  induction l generalizing m with
  | nil => simp [absSum]
  | cons t ts ih =>
    rw [List.foldl_cons, ih, bumpCategory_sum, absSum_cons]
    ring

lemma foldl_bump_keys (l : List Transaction) (m : List (String × ℚ × ℕ)) :
    ∀ x ∈ l.foldl bumpCategory m,
      x.1 ∈ m.map Prod.fst ∨ ∃ t ∈ l, x.1 = t.category := by
  induction l generalizing m with
  | nil =>
    intro x hx
    left
    simp only [List.foldl_nil] at hx
    exact List.mem_map.mpr ⟨x, hx, rfl⟩
  | cons t ts ih =>
    intro x hx
    rw [List.foldl_cons] at hx
    rcases ih (bumpCategory m t) x hx with h1 | h1
    · rcases List.mem_map.mp h1 with ⟨y, hy, hxy⟩
      rcases bumpCategory_keys hy with h2 | h2
      · right; exact ⟨t, by simp, by rw [← hxy, h2]⟩
      · left; rw [← hxy]; exact h2
    · rcases h1 with ⟨u, hu, hxu⟩
      right; exact ⟨u, by simp [hu], hxu⟩

lemma foldl_bump_nonneg (l : List Transaction) (m : List (String × ℚ × ℕ))
    (hm : ∀ x ∈ m, 0 ≤ x.2.1) :
    ∀ x ∈ l.foldl bumpCategory m, 0 ≤ x.2.1 := by
  induction l generalizing m with
  | nil => intro x hx; exact hm x (by simpa using hx)
  | cons t ts ih =>
    intro x hx
    rw [List.foldl_cons] at hx
    exact ih (bumpCategory m t) (bumpCategory_nonneg hm) x hx

lemma mem_le_mapAmtSum {m : List (String × ℚ × ℕ)} {x : String × ℚ × ℕ}
    (hx : x ∈ m) (hm : ∀ y ∈ m, 0 ≤ y.2.1) : x.2.1 ≤ mapAmtSum m := by
  induction m with
  | nil => simp at hx
  | cons e rest ih =>
    rcases List.mem_cons.mp hx with rfl | hx
    · have h0 : 0 ≤ mapAmtSum rest := by
        apply List.sum_nonneg
        intro q hq
        rcases List.mem_map.mp hq with ⟨y, hy, rfl⟩
        exact hm y (by simp [hy])
      unfold mapAmtSum at h0
      simp only [mapAmtSum, List.map_cons, List.sum_cons]
      linarith [h0]
    · have := ih hx (fun y hy => hm y (by simp [hy]))
      have h0 : 0 ≤ e.2.1 := hm e (by simp)
      simp only [mapAmtSum, List.map_cons, List.sum_cons]
      unfold mapAmtSum at this
      linarith

lemma take_sum_le (l : List ℚ) (n : ℕ) (h : ∀ x ∈ l, 0 ≤ x) :
    (l.take n).sum ≤ l.sum := by
  conv_rhs => rw [← List.take_append_drop n l]
  rw [List.sum_append]
  have : 0 ≤ (l.drop n).sum := by
    apply List.sum_nonneg
    intro x hx
    exact h x (List.mem_of_mem_drop hx)
  linarith

/-! ## Lemmas: calendar arithmetic -/

lemma yearStartDay_succ (y : ℤ) :
    yearStartDay (y + 1) = yearStartDay y + 365 + (if isLeapYear y then 1 else 0) := by
  unfold yearStartDay isLeapYear
  by_cases h : ((y % 4 == 0 && y % 100 != 0) || y % 400 == 0) = true
  · rw [if_pos h]
    simp only [Bool.or_eq_true, Bool.and_eq_true, beq_iff_eq, bne_iff_ne, ne_eq] at h
    omega
  · rw [if_neg h]
    simp only [Bool.or_eq_true, Bool.and_eq_true, beq_iff_eq, bne_iff_ne, ne_eq] at h
    push_neg at h
    omega

lemma daysInMonth_ge (y m : ℤ) : 28 ≤ daysInMonth y m := by
  unfold daysInMonth
  by_cases h1 : m = 1
  · rw [if_pos h1]
    by_cases h2 : isLeapYear y = true
    · rw [if_pos h2]; norm_num
    · rw [if_neg h2]
  · rw [if_neg h1]
    by_cases h3 : m = 3 ∨ m = 5 ∨ m = 8 ∨ m = 10
    · rw [if_pos h3]; norm_num
    · rw [if_neg h3]; norm_num

lemma daysBeforeMonth_succ (y m : ℤ) (h : 0 ≤ m) :
    daysBeforeMonth y (m + 1) = daysBeforeMonth y m + daysInMonth y m := by
  unfold daysBeforeMonth
  have h1 : (m + 1).toNat = m.toNat + 1 := by omega
  rw [h1, daysBeforeMonthN]
  have h2 : ((m.toNat : ℤ)) = m := Int.toNat_of_nonneg h
  rw [h2]

lemma daysBeforeMonth_twelve (y : ℤ) :
    daysBeforeMonth y 12 = 365 + (if isLeapYear y then 1 else 0) := by
  show daysBeforeMonthN y 12 = 365 + (if isLeapYear y then 1 else 0)
  by_cases h : isLeapYear y = true <;>
    simp [daysBeforeMonthN, daysInMonth, h]

lemma monthFirst_step (y m : ℤ) :
    mkDay y (m + 1) 1 = mkDay y m 1 + daysInMonth (y + m / 12) (m % 12) := by
  unfold mkDay
  by_cases h : m % 12 = 11
  · have h1 : (m + 1) / 12 = m / 12 + 1 := by omega
    have h2 : (m + 1) % 12 = 0 := by omega
    rw [h1, h2, h]
    have h3 : y + (m / 12 + 1) = (y + m / 12) + 1 := by ring
    rw [h3, yearStartDay_succ (y + m / 12)]
    have h4 : daysBeforeMonth (y + m / 12 + 1) 0 = 0 := rfl
    have h5 : daysBeforeMonth (y + m / 12) 12 =
        daysBeforeMonth (y + m / 12) 11 + daysInMonth (y + m / 12) 11 := by
      have h7 := daysBeforeMonth_succ (y + m / 12) 11 (by norm_num)
      norm_num at h7
      exact h7
    have h6 := daysBeforeMonth_twelve (y + m / 12)
    rw [h4]
    omega
  · have h0 : 0 ≤ m % 12 := by omega
    have h1 : (m + 1) / 12 = m / 12 := by omega
    have h2 : (m + 1) % 12 = m % 12 + 1 := by omega
    rw [h1, h2, daysBeforeMonth_succ (y + m / 12) (m % 12) h0]
    ring

lemma mkDay_day_shift (y m d : ℤ) : mkDay y m d = mkDay y m 1 + (d - 1) := by
  unfold mkDay
  ring

lemma month_span (y m : ℤ) :
    mkDay y (m + 1) 0 - mkDay y m 1 + 1 = daysInMonth (y + m / 12) (m % 12) := by
  have h1 : mkDay y (m + 1) 0 = mkDay y (m + 1) 1 + (0 - 1) := mkDay_day_shift y (m + 1) 0
  rw [h1, monthFirst_step]
  ring

lemma month_span_pos (y m : ℤ) : 0 < mkDay y (m + 1) 0 - mkDay y m 1 + 1 := by
  rw [month_span]
  linarith [daysInMonth_ge (y + m / 12) (m % 12)]

lemma monthFirst_add_ge (y m : ℤ) (k : ℕ) :
    mkDay y m 1 + 28 * k ≤ mkDay y (m + k) 1 := by
  induction k with
  | zero => simp
  | succ n ih =>
    have h1 : (m + (n + 1 : ℕ) : ℤ) = (m + n) + 1 := by push_cast; ring
    rw [h1, monthFirst_step y (m + n)]
    have h2 := daysInMonth_ge (y + (m + n) / 12) ((m + n) % 12)
    push_cast
    push_cast at ih
    linarith

lemma msCeilDays_eq (s en : ℤ) : msCeilDays s en = en - s + 1 := by
  unfold msCeilDays
  omega

lemma monthlyDays_pos (now : SDate) : 0 < monthlyDays now := by
  unfold monthlyDays monthEndDay monthStartDay
  exact month_span_pos now.year now.month

lemma halfYearDays_pos (now : SDate) : 0 < halfYearDays now := by
  unfold halfYearDays halfStartDay halfEndDay
  rw [msCeilDays_eq]
  have h1 : mkDay now.year (now.month / 6 * 6 + 6) 0 =
      mkDay now.year (now.month / 6 * 6 + 6) 1 + (0 - 1) :=
    mkDay_day_shift _ _ 0
  have h2 := monthFirst_add_ge now.year (now.month / 6 * 6) 6
  norm_num at h2
  omega

lemma annualDays_pos (now : SDate) : 0 < annualDays now := by
  unfold annualDays
  by_cases h : now.year % 4 = 0
  · rw [if_pos h]; norm_num
  · rw [if_neg h]; norm_num

/-! ## Lemmas: calculatePeriodAnalytics -/

lemma cpa_totalIncome (l : List Transaction) (n : String) (d : ℚ) :
    (calculatePeriodAnalytics l n d).totalIncome = absSum (l.filter isIncome) := rfl

lemma cpa_totalExpenses (l : List Transaction) (n : String) (d : ℚ) :
    (calculatePeriodAnalytics l n d).totalExpenses = absSum (l.filter isExpense) := rfl

lemma cpa_netAmount (l : List Transaction) (n : String) (d : ℚ) :
    (calculatePeriodAnalytics l n d).netAmount =
      absSum (l.filter isIncome) - absSum (l.filter isExpense) := rfl

lemma cpa_savingsRate (l : List Transaction) (n : String) (d : ℚ) :
    (calculatePeriodAnalytics l n d).savingsRate =
      if absSum (l.filter isIncome) > 0
      then (absSum (l.filter isIncome) - absSum (l.filter isExpense)) /
        absSum (l.filter isIncome) * 100
      else 0 := rfl

lemma cpa_averageDaily (l : List Transaction) (n : String) (d : ℚ) :
    (calculatePeriodAnalytics l n d).averageDaily =
      absSum (l.filter isExpense) / d := rfl

lemma cpa_topCategories (l : List Transaction) (n : String) (d : ℚ) :
    (calculatePeriodAnalytics l n d).topCategories =
      (sortDescBy (fun c => c.amount)
        (((l.filter isExpense).foldl bumpCategory []).map (fun ent =>
          { category := ent.1, amount := ent.2.1, count := ent.2.2,
            percentage := if absSum (l.filter isExpense) > 0
              then ent.2.1 / absSum (l.filter isExpense) * 100 else 0
            : CategorySummary }))).take 5 := rfl

lemma map_div_sum (m : List (String × ℚ × ℕ)) (E : ℚ) :
    (m.map (fun ent => ent.2.1 / E * 100)).sum = mapAmtSum m / E * 100 := by
  induction m with
  | nil => simp [mapAmtSum]
  | cons e rest ih =>
    simp only [mapAmtSum, List.map_cons, List.sum_cons] at ih ⊢
    rw [ih]
    ring

/-- All C4 facts about topCategories, proved once for
calculatePeriodAnalytics over an arbitrary transaction list. -/
lemma cpa_topCategories_facts (l : List Transaction) (n : String) (d : ℚ) :
    (calculatePeriodAnalytics l n d).topCategories.length ≤ 5 ∧
    (calculatePeriodAnalytics l n d).topCategories.Pairwise
      (fun a b => b.amount ≤ a.amount) ∧
    (∀ c ∈ (calculatePeriodAnalytics l n d).topCategories,
      ∃ t ∈ l, t.type = TxType.expense ∧ c.category = t.category) ∧
    (∀ c ∈ (calculatePeriodAnalytics l n d).topCategories,
      0 ≤ c.percentage ∧ c.percentage ≤ 100) ∧
    ((calculatePeriodAnalytics l n d).topCategories.map
      (fun c => c.percentage)).sum ≤ 100 ∧
    ((((l.filter isExpense).foldl bumpCategory []).length ≤ 5 →
      0 < (calculatePeriodAnalytics l n d).totalExpenses →
      ((calculatePeriodAnalytics l n d).topCategories.map
        (fun c => c.percentage)).sum = 100)) := by
  rw [cpa_topCategories, cpa_totalExpenses]
  set E := absSum (l.filter isExpense) with hE
  set M := (l.filter isExpense).foldl bumpCategory [] with hM
  set f : String × ℚ × ℕ → CategorySummary := fun ent =>
    { category := ent.1, amount := ent.2.1, count := ent.2.2,
      percentage := if E > 0 then ent.2.1 / E * 100 else 0 } with hf
  set sorted := sortDescBy (fun c : CategorySummary => c.amount) (M.map f) with hsorted
  have hperm : sorted.Perm (M.map f) := sortDescBy_perm _ _
  have hM_nonneg : ∀ x ∈ M, 0 ≤ x.2.1 := by
    rw [hM]
    exact foldl_bump_nonneg _ [] (by intro x hx; simp at hx)
  have hM_sum : mapAmtSum M = E := by
    rw [hM, foldl_bump_sum]
    simp [mapAmtSum, hE]
  -- membership in the mapped list gives an entry of the category map
  have hmem : ∀ c ∈ sorted, ∃ ent ∈ M, f ent = c := by
    intro c hc
    have := hperm.mem_iff.mp hc
    exact List.mem_map.mp this
  -- percentage bounds for any element of sorted
  have hpct : ∀ c ∈ sorted, 0 ≤ c.percentage ∧ c.percentage ≤ 100 := by
    intro c hc
    rcases hmem c hc with ⟨ent, hent, rfl⟩
    have h0 : 0 ≤ ent.2.1 := hM_nonneg ent hent
    have h1 : ent.2.1 ≤ E := hM_sum ▸ mem_le_mapAmtSum hent hM_nonneg
    show 0 ≤ (if E > 0 then ent.2.1 / E * 100 else 0) ∧
      (if E > 0 then ent.2.1 / E * 100 else 0) ≤ 100
    by_cases hEpos : E > 0
    · rw [if_pos hEpos]
      constructor
      · positivity
      · have h2 : ent.2.1 / E ≤ 1 := by
          rw [div_le_one hEpos]
          exact h1
        nlinarith
    · rw [if_neg hEpos]
      norm_num
  refine ⟨?_, ?_, ?_, ?_, ?_, ?_⟩
  · -- length ≤ 5
    rw [List.length_take]
    exact min_le_left 5 _
  · -- sorted descending by amount
    exact (sortDescBy_sorted _ _).sublist (List.take_sublist 5 sorted)
  · -- categories come from expense transactions of the list
    intro c hc
    have hc2 : c ∈ sorted := (List.take_sublist 5 sorted).mem hc
    rcases hmem c hc2 with ⟨ent, hent, rfl⟩
    have hkeys := foldl_bump_keys (l.filter isExpense) [] ent (hM ▸ hent)
    rcases hkeys with h1 | ⟨t, ht, hcat⟩
    · simp at h1
    · refine ⟨t, List.mem_of_mem_filter ht, ?_, ?_⟩
      · have := List.of_mem_filter ht
        simpa [isExpense] using this
      · exact hcat
  · -- percentage bounds on the returned entries
    intro c hc
    exact hpct c ((List.take_sublist 5 sorted).mem hc)
  · -- percentages sum to at most 100
    have hsum_sorted : ((sorted.map (fun c => c.percentage)).sum) =
        ((M.map f).map (fun c => c.percentage)).sum :=
      (hperm.map (fun c => c.percentage)).sum_eq
    have hsum_mapped : ((M.map f).map (fun c => c.percentage)).sum =
        if E > 0 then mapAmtSum M / E * 100 else 0 := by
      by_cases hEpos : E > 0
      · rw [if_pos hEpos, List.map_map]
        have : ((fun c : CategorySummary => c.percentage) ∘ f) =
            fun ent => ent.2.1 / E * 100 := by
          funext ent
          simp [hf, if_pos hEpos]
        rw [this, map_div_sum]
      · rw [if_neg hEpos, List.map_map]
        have : ((fun c : CategorySummary => c.percentage) ∘ f) =
            fun _ => (0 : ℚ) := by
          funext ent
          simp [hf, if_neg hEpos]
        rw [this]
        simp
    have htake : ((sorted.take 5).map (fun c => c.percentage)).sum ≤
        (sorted.map (fun c => c.percentage)).sum := by
      rw [List.map_take]
      apply take_sum_le
      intro x hx
      rcases List.mem_map.mp hx with ⟨c, hc, rfl⟩
      exact (hpct c hc).1
    rw [hsum_sorted, hsum_mapped] at htake
    by_cases hEpos : E > 0
    · rw [if_pos hEpos, hM_sum] at htake
      rw [div_self (ne_of_gt hEpos)] at htake
      linarith
    · rw [if_neg hEpos] at htake
      linarith
  · -- percentages sum to exactly 100 when nothing is cut and expenses > 0
    intro hlen hEpos
    have hlen2 : sorted.length ≤ 5 := by
      rw [hperm.length_eq, List.length_map]
      exact hlen
    have htake_all : sorted.take 5 = sorted := List.take_of_length_le hlen2
    rw [htake_all]
    have hsum_sorted : ((sorted.map (fun c => c.percentage)).sum) =
        ((M.map f).map (fun c => c.percentage)).sum :=
      (hperm.map (fun c => c.percentage)).sum_eq
    rw [hsum_sorted, List.map_map]
    have : ((fun c : CategorySummary => c.percentage) ∘ f) =
        fun ent => ent.2.1 / E * 100 := by
      funext ent
      simp [hf, if_pos hEpos]
    rw [this, map_div_sum, hM_sum, div_self (ne_of_gt hEpos)]
    norm_num

lemma absSum_filter_income (l : List Transaction) :
    absSum (l.filter isIncome) =
      (l.map (fun t => if t.type = TxType.income then |t.amount| else 0)).sum := by
  rw [absSum_filter_eq_sum_ite]
  have hfun : (fun t : Transaction => if isIncome t then |t.amount| else 0) =
      (fun t => if t.type = TxType.income then |t.amount| else 0) := by
    funext t
    by_cases h : t.type = TxType.income <;> simp [isIncome, h]
  rw [hfun]

lemma absSum_filter_expense (l : List Transaction) :
    absSum (l.filter isExpense) =
      (l.map (fun t => if t.type = TxType.expense then |t.amount| else 0)).sum := by
  rw [absSum_filter_eq_sum_ite]
  have hfun : (fun t : Transaction => if isExpense t then |t.amount| else 0) =
      (fun t => if t.type = TxType.expense then |t.amount| else 0) := by
    funext t
    by_cases h : t.type = TxType.expense <;> simp [isExpense, h]
  rw [hfun]

/-- The C1 facts, for calculatePeriodAnalytics over any list. -/
lemma cpa_c1facts (l : List Transaction) (n : String) (d : ℚ) :
    (calculatePeriodAnalytics l n d).totalIncome =
      (l.map (fun t => if t.type = TxType.income then |t.amount| else 0)).sum ∧
    (calculatePeriodAnalytics l n d).totalExpenses =
      (l.map (fun t => if t.type = TxType.expense then |t.amount| else 0)).sum ∧
    0 ≤ (calculatePeriodAnalytics l n d).totalIncome ∧
    0 ≤ (calculatePeriodAnalytics l n d).totalExpenses ∧
    (calculatePeriodAnalytics l n d).netAmount =
      (calculatePeriodAnalytics l n d).totalIncome -
        (calculatePeriodAnalytics l n d).totalExpenses := by
  refine ⟨?_, ?_, ?_, ?_, ?_⟩
  · rw [cpa_totalIncome, absSum_filter_income]
  · rw [cpa_totalExpenses, absSum_filter_expense]
  · rw [cpa_totalIncome]; exact absSum_nonneg _
  · rw [cpa_totalExpenses]; exact absSum_nonneg _
  · rw [cpa_netAmount, cpa_totalIncome, cpa_totalExpenses]

/-- The C9 facts, for calculatePeriodAnalytics over any list. -/
lemma cpa_c9facts (l : List Transaction) (n : String) (d : ℚ) :
    (calculatePeriodAnalytics l n d).averageDaily =
      (calculatePeriodAnalytics l n d).totalExpenses / d ∧
    ((calculatePeriodAnalytics l n d).totalIncome = 0 →
      (calculatePeriodAnalytics l n d).savingsRate = 0) ∧
    ((calculatePeriodAnalytics l n d).totalExpenses = 0 →
      (calculatePeriodAnalytics l n d).averageDaily = 0) ∧
    ((calculatePeriodAnalytics l n d).totalIncome ≠ 0 →
      (calculatePeriodAnalytics l n d).savingsRate =
        (calculatePeriodAnalytics l n d).netAmount /
          (calculatePeriodAnalytics l n d).totalIncome * 100) := by
  refine ⟨?_, ?_, ?_, ?_⟩
  · rw [cpa_averageDaily, cpa_totalExpenses]
  · intro h
    rw [cpa_totalIncome] at h
    rw [cpa_savingsRate, h]
    norm_num
  · intro h
    rw [cpa_totalExpenses] at h
    rw [cpa_averageDaily, h]
    exact zero_div d
  · intro h
    rw [cpa_totalIncome] at h
    have hpos : absSum (l.filter isIncome) > 0 :=
      lt_of_le_of_ne (absSum_nonneg _) (Ne.symm h)
    rw [cpa_savingsRate, cpa_netAmount, cpa_totalIncome, if_pos hpos]

/-! ## Claim theorems -/

/-- C1: for every transaction list and every period query (weekly, monthly,
half-yearly, annual), the returned summary's totalIncome is the sum of the
absolute amounts of the window's income transactions, totalExpenses the sum
for the window's expense transactions, both are non-negative, and
netAmount = totalIncome - totalExpenses exactly. -/
theorem c1_period_summary_totals (txs : List Transaction) (now : SDate) :
    (((AnalyticsEngine.init txs).getWeeklyAnalytics now).totalIncome =
        (((AnalyticsEngine.init txs).getTransactionsInPeriod (weekStartDay now)
          (weekStartDay now + 6)).map
          (fun t => if t.type = TxType.income then |t.amount| else 0)).sum ∧
      ((AnalyticsEngine.init txs).getWeeklyAnalytics now).totalExpenses =
        (((AnalyticsEngine.init txs).getTransactionsInPeriod (weekStartDay now)
          (weekStartDay now + 6)).map
          (fun t => if t.type = TxType.expense then |t.amount| else 0)).sum ∧
      0 ≤ ((AnalyticsEngine.init txs).getWeeklyAnalytics now).totalIncome ∧
      0 ≤ ((AnalyticsEngine.init txs).getWeeklyAnalytics now).totalExpenses ∧
      ((AnalyticsEngine.init txs).getWeeklyAnalytics now).netAmount =
        ((AnalyticsEngine.init txs).getWeeklyAnalytics now).totalIncome -
          ((AnalyticsEngine.init txs).getWeeklyAnalytics now).totalExpenses) ∧
    (((AnalyticsEngine.init txs).getMonthlyAnalytics now).totalIncome =
        (((AnalyticsEngine.init txs).getTransactionsInPeriod (monthStartDay now)
          (monthEndDay now)).map
          (fun t => if t.type = TxType.income then |t.amount| else 0)).sum ∧
      ((AnalyticsEngine.init txs).getMonthlyAnalytics now).totalExpenses =
        (((AnalyticsEngine.init txs).getTransactionsInPeriod (monthStartDay now)
          (monthEndDay now)).map
          (fun t => if t.type = TxType.expense then |t.amount| else 0)).sum ∧
      0 ≤ ((AnalyticsEngine.init txs).getMonthlyAnalytics now).totalIncome ∧
      0 ≤ ((AnalyticsEngine.init txs).getMonthlyAnalytics now).totalExpenses ∧
      ((AnalyticsEngine.init txs).getMonthlyAnalytics now).netAmount =
        ((AnalyticsEngine.init txs).getMonthlyAnalytics now).totalIncome -
          ((AnalyticsEngine.init txs).getMonthlyAnalytics now).totalExpenses) ∧
    (((AnalyticsEngine.init txs).getHalfYearlyAnalytics now).totalIncome =
        (((AnalyticsEngine.init txs).getTransactionsInPeriod (halfStartDay now)
          (halfEndDay now)).map
          (fun t => if t.type = TxType.income then |t.amount| else 0)).sum ∧
      ((AnalyticsEngine.init txs).getHalfYearlyAnalytics now).totalExpenses =
        (((AnalyticsEngine.init txs).getTransactionsInPeriod (halfStartDay now)
          (halfEndDay now)).map
          (fun t => if t.type = TxType.expense then |t.amount| else 0)).sum ∧
      0 ≤ ((AnalyticsEngine.init txs).getHalfYearlyAnalytics now).totalIncome ∧
      0 ≤ ((AnalyticsEngine.init txs).getHalfYearlyAnalytics now).totalExpenses ∧
      ((AnalyticsEngine.init txs).getHalfYearlyAnalytics now).netAmount =
        ((AnalyticsEngine.init txs).getHalfYearlyAnalytics now).totalIncome -
          ((AnalyticsEngine.init txs).getHalfYearlyAnalytics now).totalExpenses) ∧
    (((AnalyticsEngine.init txs).getAnnualAnalytics now).totalIncome =
        (((AnalyticsEngine.init txs).getTransactionsInPeriod (annualStartDay now)
          (annualEndDay now)).map
          (fun t => if t.type = TxType.income then |t.amount| else 0)).sum ∧
      ((AnalyticsEngine.init txs).getAnnualAnalytics now).totalExpenses =
        (((AnalyticsEngine.init txs).getTransactionsInPeriod (annualStartDay now)
          (annualEndDay now)).map
          (fun t => if t.type = TxType.expense then |t.amount| else 0)).sum ∧
      0 ≤ ((AnalyticsEngine.init txs).getAnnualAnalytics now).totalIncome ∧
      0 ≤ ((AnalyticsEngine.init txs).getAnnualAnalytics now).totalExpenses ∧
      ((AnalyticsEngine.init txs).getAnnualAnalytics now).netAmount =
        ((AnalyticsEngine.init txs).getAnnualAnalytics now).totalIncome -
          ((AnalyticsEngine.init txs).getAnnualAnalytics now).totalExpenses) := by
  exact ⟨cpa_c1facts _ _ _, cpa_c1facts _ _ _, cpa_c1facts _ _ _, cpa_c1facts _ _ _⟩

/-- C9: for every transaction list and every period query, savingsRate is 0
whenever totalIncome is 0 and netAmount/totalIncome*100 otherwise,
averageDaily equals totalExpenses divided by the period's day count (hence 0
when totalExpenses is 0), and every day count is positive, so both values are
finite. -/
theorem c9_zero_guards (txs : List Transaction) (now : SDate) :
    (((AnalyticsEngine.init txs).getWeeklyAnalytics now).averageDaily =
        ((AnalyticsEngine.init txs).getWeeklyAnalytics now).totalExpenses / 7 ∧
      (((AnalyticsEngine.init txs).getWeeklyAnalytics now).totalIncome = 0 →
        ((AnalyticsEngine.init txs).getWeeklyAnalytics now).savingsRate = 0) ∧
      (((AnalyticsEngine.init txs).getWeeklyAnalytics now).totalExpenses = 0 →
        ((AnalyticsEngine.init txs).getWeeklyAnalytics now).averageDaily = 0) ∧
      (((AnalyticsEngine.init txs).getWeeklyAnalytics now).totalIncome ≠ 0 →
        ((AnalyticsEngine.init txs).getWeeklyAnalytics now).savingsRate =
          ((AnalyticsEngine.init txs).getWeeklyAnalytics now).netAmount /
            ((AnalyticsEngine.init txs).getWeeklyAnalytics now).totalIncome * 100) ∧
      (0 : ℚ) < 7) ∧
    (((AnalyticsEngine.init txs).getMonthlyAnalytics now).averageDaily =
        ((AnalyticsEngine.init txs).getMonthlyAnalytics now).totalExpenses /
          ((monthlyDays now : ℤ) : ℚ) ∧
      (((AnalyticsEngine.init txs).getMonthlyAnalytics now).totalIncome = 0 →
        ((AnalyticsEngine.init txs).getMonthlyAnalytics now).savingsRate = 0) ∧
      (((AnalyticsEngine.init txs).getMonthlyAnalytics now).totalExpenses = 0 →
        ((AnalyticsEngine.init txs).getMonthlyAnalytics now).averageDaily = 0) ∧
      (((AnalyticsEngine.init txs).getMonthlyAnalytics now).totalIncome ≠ 0 →
        ((AnalyticsEngine.init txs).getMonthlyAnalytics now).savingsRate =
          ((AnalyticsEngine.init txs).getMonthlyAnalytics now).netAmount /
            ((AnalyticsEngine.init txs).getMonthlyAnalytics now).totalIncome * 100) ∧
      (0 : ℚ) < ((monthlyDays now : ℤ) : ℚ)) ∧
    (((AnalyticsEngine.init txs).getHalfYearlyAnalytics now).averageDaily =
        ((AnalyticsEngine.init txs).getHalfYearlyAnalytics now).totalExpenses /
          ((halfYearDays now : ℤ) : ℚ) ∧
      (((AnalyticsEngine.init txs).getHalfYearlyAnalytics now).totalIncome = 0 →
        ((AnalyticsEngine.init txs).getHalfYearlyAnalytics now).savingsRate = 0) ∧
      (((AnalyticsEngine.init txs).getHalfYearlyAnalytics now).totalExpenses = 0 →
        ((AnalyticsEngine.init txs).getHalfYearlyAnalytics now).averageDaily = 0) ∧
      (((AnalyticsEngine.init txs).getHalfYearlyAnalytics now).totalIncome ≠ 0 →
        ((AnalyticsEngine.init txs).getHalfYearlyAnalytics now).savingsRate =
          ((AnalyticsEngine.init txs).getHalfYearlyAnalytics now).netAmount /
            ((AnalyticsEngine.init txs).getHalfYearlyAnalytics now).totalIncome * 100) ∧
      (0 : ℚ) < ((halfYearDays now : ℤ) : ℚ)) ∧
    (((AnalyticsEngine.init txs).getAnnualAnalytics now).averageDaily =
        ((AnalyticsEngine.init txs).getAnnualAnalytics now).totalExpenses /
          ((annualDays now : ℤ) : ℚ) ∧
      (((AnalyticsEngine.init txs).getAnnualAnalytics now).totalIncome = 0 →
        ((AnalyticsEngine.init txs).getAnnualAnalytics now).savingsRate = 0) ∧
      (((AnalyticsEngine.init txs).getAnnualAnalytics now).totalExpenses = 0 →
        ((AnalyticsEngine.init txs).getAnnualAnalytics now).averageDaily = 0) ∧
      (((AnalyticsEngine.init txs).getAnnualAnalytics now).totalIncome ≠ 0 →
        ((AnalyticsEngine.init txs).getAnnualAnalytics now).savingsRate =
          ((AnalyticsEngine.init txs).getAnnualAnalytics now).netAmount /
            ((AnalyticsEngine.init txs).getAnnualAnalytics now).totalIncome * 100) ∧
      (0 : ℚ) < ((annualDays now : ℤ) : ℚ)) := by
  have hw := cpa_c9facts ((AnalyticsEngine.init txs).getTransactionsInPeriod
    (weekStartDay now) (weekStartDay now + 6)) ("This Week") 7
  have hm := cpa_c9facts ((AnalyticsEngine.init txs).getTransactionsInPeriod
    (monthStartDay now) (monthEndDay now)) ("This Month") ((monthlyDays now : ℤ) : ℚ)
  have hh := cpa_c9facts ((AnalyticsEngine.init txs).getTransactionsInPeriod
    (halfStartDay now) (halfEndDay now)) ("This Half Year") ((halfYearDays now : ℤ) : ℚ)
  have ha := cpa_c9facts ((AnalyticsEngine.init txs).getTransactionsInPeriod
    (annualStartDay now) (annualEndDay now)) ("This Year") ((annualDays now : ℤ) : ℚ)
  refine ⟨⟨hw.1, hw.2.1, hw.2.2.1, hw.2.2.2, by norm_num⟩,
    ⟨hm.1, hm.2.1, hm.2.2.1, hm.2.2.2, ?_⟩,
    ⟨hh.1, hh.2.1, hh.2.2.1, hh.2.2.2, ?_⟩,
    ⟨ha.1, ha.2.1, ha.2.2.1, ha.2.2.2, ?_⟩⟩
  · exact_mod_cast monthlyDays_pos now
  · exact_mod_cast halfYearDays_pos now
  · exact_mod_cast annualDays_pos now


/-- C9 witness: on a June-2024 income of 200 with the current date
2024-06-15, the monthly savings rate follows the netAmount/income formula and
the average daily spend is 0. -/
theorem c9_zero_guards_witness :
    ((AnalyticsEngine.init [txIncomeJune]).getMonthlyAnalytics ⟨2024, 5, 15⟩).savingsRate =
      ((AnalyticsEngine.init [txIncomeJune]).getMonthlyAnalytics ⟨2024, 5, 15⟩).netAmount /
        ((AnalyticsEngine.init [txIncomeJune]).getMonthlyAnalytics ⟨2024, 5, 15⟩).totalIncome * 100 ∧
    ((AnalyticsEngine.init [txIncomeJune]).getMonthlyAnalytics ⟨2024, 5, 15⟩).averageDaily = 0 :=
  ⟨(c9_zero_guards [txIncomeJune] ⟨2024, 5, 15⟩).2.1.2.2.2.1
      (by show absSum [txIncomeJune] ≠ 0; norm_num [absSum, txIncomeJune]),
   (c9_zero_guards [txIncomeJune] ⟨2024, 5, 15⟩).2.1.2.2.1 rfl⟩

/-- C5: for non-negative inputs, the growth-percentage helper shared by the
four comparison queries, and the inline change expression of
getCategoryComparison, return 100 when previous = 0 and current > 0,
0 when both are 0, and ((current - previous)/previous)*100 when
previous is nonzero. -/
theorem c5_growth_helper (current previous : ℚ) (hc : 0 ≤ current)
    (hp : 0 ≤ previous) :
    (previous = 0 → 0 < current →
      calculateGrowth current previous = 100 ∧
      categoryChange current previous = 100) ∧
    (previous = 0 → current = 0 →
      calculateGrowth current previous = 0 ∧
      categoryChange current previous = 0) ∧
    (previous ≠ 0 →
      calculateGrowth current previous = (current - previous) / previous * 100 ∧
      categoryChange current previous = (current - previous) / previous * 100) := by
  refine ⟨?_, ?_, ?_⟩
  · rintro rfl h
    constructor
    · simp [calculateGrowth, h]
    · simp [categoryChange, h]
  · rintro rfl rfl
    constructor
    · simp [calculateGrowth]
    · simp [categoryChange]
  · intro h
    have hppos : 0 < previous := lt_of_le_of_ne hp (Ne.symm h)
    constructor
    · rw [calculateGrowth, if_neg h]
    · rw [categoryChange, if_pos hppos]

/-- C5 witness: growth from 0 to 5 is exactly 100 in both helpers. -/
theorem c5_growth_helper_witness :
    calculateGrowth 5 0 = 100 ∧ categoryChange 5 0 = 100 :=
  (c5_growth_helper 5 0 (by norm_num) le_rfl).1 rfl (by norm_num)

/-- C6: the Expense Balance sub-score is the strict-inequality band function
of the largest topCategories percentage (100 for no categories), so at
exactly 50 it is 50, at exactly 40 it is 70, at exactly 30 it is 90, and at
60 it is 30; and the health score's last factor carries exactly this value
computed on the current month's topCategories. -/
theorem c6_expense_balance_bands :
    (∀ (c : CategorySummary) (rest : List CategorySummary),
      calculateCategoryBalance (c :: rest) =
        (if (rest.map (fun x => x.percentage)).foldl max c.percentage > 50 then 30
         else if (rest.map (fun x => x.percentage)).foldl max c.percentage > 40 then 50
         else if (rest.map (fun x => x.percentage)).foldl max c.percentage > 30 then 70
         else 90)) ∧
    calculateCategoryBalance [] = 100 ∧
    calculateCategoryBalance [⟨"A", 50, 1, 50⟩] = 50 ∧
    calculateCategoryBalance [⟨"A", 40, 1, 40⟩] = 70 ∧
    calculateCategoryBalance [⟨"A", 30, 1, 30⟩] = 90 ∧
    calculateCategoryBalance [⟨"A", 60, 1, 60⟩] = 30 ∧
    (∀ (e : AnalyticsEngine) (now : SDate),
      (((e.getFinancialHealthScore now).factors.map (fun f => f.score)))[3]? =
        some (((categoryBalanceOf e now : ℚ) : ℝ))) := by
  refine ⟨fun c rest => rfl, rfl, by decide, by decide, by decide, by decide, ?_⟩
  intro e now
  simp [AnalyticsEngine.getFinancialHealthScore]

lemma calculateGrowth_neg_of (c p : ℚ) (h1 : p < 0) (h2 : p < c) :
    calculateGrowth c p < 0 := by
  rw [calculateGrowth, if_neg (ne_of_lt h1)]
  have hd : 0 < c - p := by linarith
  have hq : (c - p) / p < 0 := div_neg_of_pos_of_neg hd h1
  exact mul_neg_of_neg_of_pos hq (by norm_num)

/-- C10: in every comparison query, when the previous period's netAmount is
strictly negative and the current one is strictly larger, the reported
savings growth percentage is negative (the zero guard only covers
previous = 0), so an improvement from negative to positive savings is
reported as negative growth. -/
theorem c10_savings_growth_sign (txs : List Transaction) (now : SDate) :
    ∀ cmp ∈ [(AnalyticsEngine.init txs).getWeeklyComparison now,
             (AnalyticsEngine.init txs).getMonthlyComparison now,
             (AnalyticsEngine.init txs).getHalfYearlyComparison now,
             (AnalyticsEngine.init txs).getYearlyComparison now],
      cmp.previous.netAmount < 0 →
      cmp.previous.netAmount < cmp.current.netAmount →
      cmp.growth.savings < 0 := by
  intro cmp hmem h1 h2
  fin_cases hmem <;>
    exact calculateGrowth_neg_of _ _ h1 h2


/-- C10 witness: with May 2024 net -200 and June 2024 net 400 (a strict
improvement into positive savings), the monthly comparison reports a negative
savings growth. -/
theorem c10_savings_growth_sign_witness :
    ((AnalyticsEngine.init [txMayIncome, txMayExpense, txJunIncome, txJunExpense]).getMonthlyComparison
      ⟨2024, 5, 15⟩).growth.savings < 0 :=
  c10_savings_growth_sign [txMayIncome, txMayExpense, txJunIncome, txJunExpense]
    ⟨2024, 5, 15⟩
    ((AnalyticsEngine.init [txMayIncome, txMayExpense, txJunIncome, txJunExpense]).getMonthlyComparison
      ⟨2024, 5, 15⟩)
    (by simp)
    (by show absSum [txMayIncome] - absSum [txMayExpense] < 0
        norm_num [absSum, txMayIncome, txMayExpense])
    (by show absSum [txMayIncome] - absSum [txMayExpense] <
          absSum [txJunIncome] - absSum [txJunExpense]
        norm_num [absSum, txMayIncome, txMayExpense, txJunIncome, txJunExpense])

/-- C4: for every transaction list and every period query, topCategories has
at most 5 entries, is sorted descending by amount, draws its categories only
from expense transactions inside the window, every percentage is in [0, 100],
and the percentages sum to at most 100, with equality when the category map
was not cut by the 5-entry cap and expenses are positive. -/
theorem c4_top_categories (txs : List Transaction) (now : SDate) :
    (((AnalyticsEngine.init txs).getWeeklyAnalytics now).topCategories.length ≤ 5 ∧
      ((AnalyticsEngine.init txs).getWeeklyAnalytics now).topCategories.Pairwise
        (fun a b => b.amount ≤ a.amount) ∧
      (∀ c ∈ ((AnalyticsEngine.init txs).getWeeklyAnalytics now).topCategories,
        ∃ t ∈ (AnalyticsEngine.init txs).getTransactionsInPeriod (weekStartDay now)
          (weekStartDay now + 6), t.type = TxType.expense ∧ c.category = t.category) ∧
      (∀ c ∈ ((AnalyticsEngine.init txs).getWeeklyAnalytics now).topCategories,
        0 ≤ c.percentage ∧ c.percentage ≤ 100) ∧
      (((AnalyticsEngine.init txs).getWeeklyAnalytics now).topCategories.map
        (fun c => c.percentage)).sum ≤ 100 ∧
      (((((AnalyticsEngine.init txs).getTransactionsInPeriod (weekStartDay now)
            (weekStartDay now + 6)).filter isExpense).foldl bumpCategory []).length ≤ 5 →
        0 < ((AnalyticsEngine.init txs).getWeeklyAnalytics now).totalExpenses →
        (((AnalyticsEngine.init txs).getWeeklyAnalytics now).topCategories.map
          (fun c => c.percentage)).sum = 100)) ∧
    (((AnalyticsEngine.init txs).getMonthlyAnalytics now).topCategories.length ≤ 5 ∧
      ((AnalyticsEngine.init txs).getMonthlyAnalytics now).topCategories.Pairwise
        (fun a b => b.amount ≤ a.amount) ∧
      (∀ c ∈ ((AnalyticsEngine.init txs).getMonthlyAnalytics now).topCategories,
        ∃ t ∈ (AnalyticsEngine.init txs).getTransactionsInPeriod (monthStartDay now)
          (monthEndDay now), t.type = TxType.expense ∧ c.category = t.category) ∧
      (∀ c ∈ ((AnalyticsEngine.init txs).getMonthlyAnalytics now).topCategories,
        0 ≤ c.percentage ∧ c.percentage ≤ 100) ∧
      (((AnalyticsEngine.init txs).getMonthlyAnalytics now).topCategories.map
        (fun c => c.percentage)).sum ≤ 100 ∧
      (((((AnalyticsEngine.init txs).getTransactionsInPeriod (monthStartDay now)
            (monthEndDay now)).filter isExpense).foldl bumpCategory []).length ≤ 5 →
        0 < ((AnalyticsEngine.init txs).getMonthlyAnalytics now).totalExpenses →
        (((AnalyticsEngine.init txs).getMonthlyAnalytics now).topCategories.map
          (fun c => c.percentage)).sum = 100)) ∧
    (((AnalyticsEngine.init txs).getHalfYearlyAnalytics now).topCategories.length ≤ 5 ∧
      ((AnalyticsEngine.init txs).getHalfYearlyAnalytics now).topCategories.Pairwise
        (fun a b => b.amount ≤ a.amount) ∧
      (∀ c ∈ ((AnalyticsEngine.init txs).getHalfYearlyAnalytics now).topCategories,
        ∃ t ∈ (AnalyticsEngine.init txs).getTransactionsInPeriod (halfStartDay now)
          (halfEndDay now), t.type = TxType.expense ∧ c.category = t.category) ∧
      (∀ c ∈ ((AnalyticsEngine.init txs).getHalfYearlyAnalytics now).topCategories,
        0 ≤ c.percentage ∧ c.percentage ≤ 100) ∧
      (((AnalyticsEngine.init txs).getHalfYearlyAnalytics now).topCategories.map
        (fun c => c.percentage)).sum ≤ 100 ∧
      (((((AnalyticsEngine.init txs).getTransactionsInPeriod (halfStartDay now)
            (halfEndDay now)).filter isExpense).foldl bumpCategory []).length ≤ 5 →
        0 < ((AnalyticsEngine.init txs).getHalfYearlyAnalytics now).totalExpenses →
        (((AnalyticsEngine.init txs).getHalfYearlyAnalytics now).topCategories.map
          (fun c => c.percentage)).sum = 100)) ∧
    (((AnalyticsEngine.init txs).getAnnualAnalytics now).topCategories.length ≤ 5 ∧
      ((AnalyticsEngine.init txs).getAnnualAnalytics now).topCategories.Pairwise
        (fun a b => b.amount ≤ a.amount) ∧
      (∀ c ∈ ((AnalyticsEngine.init txs).getAnnualAnalytics now).topCategories,
        ∃ t ∈ (AnalyticsEngine.init txs).getTransactionsInPeriod (annualStartDay now)
          (annualEndDay now), t.type = TxType.expense ∧ c.category = t.category) ∧
      (∀ c ∈ ((AnalyticsEngine.init txs).getAnnualAnalytics now).topCategories,
        0 ≤ c.percentage ∧ c.percentage ≤ 100) ∧
      (((AnalyticsEngine.init txs).getAnnualAnalytics now).topCategories.map
        (fun c => c.percentage)).sum ≤ 100 ∧
      (((((AnalyticsEngine.init txs).getTransactionsInPeriod (annualStartDay now)
            (annualEndDay now)).filter isExpense).foldl bumpCategory []).length ≤ 5 →
        0 < ((AnalyticsEngine.init txs).getAnnualAnalytics now).totalExpenses →
        (((AnalyticsEngine.init txs).getAnnualAnalytics now).topCategories.map
          (fun c => c.percentage)).sum = 100)) := by
  exact ⟨cpa_topCategories_facts _ _ _, cpa_topCategories_facts _ _ _,
    cpa_topCategories_facts _ _ _, cpa_topCategories_facts _ _ _⟩


/-- C4 witness: with two June-2024 expense categories and the current date
2024-06-15, the monthly topCategories percentages sum to exactly 100. -/
theorem c4_top_categories_witness :
    (((AnalyticsEngine.init [txFood, txTravel]).getMonthlyAnalytics
      ⟨2024, 5, 15⟩).topCategories.map (fun c => c.percentage)).sum = 100 :=
  (c4_top_categories [txFood, txTravel] ⟨2024, 5, 15⟩).2.1.2.2.2.2.2
    (by decide)
    (by show (0 : ℚ) < absSum [txTravel, txFood]
        norm_num [absSum, txTravel, txFood])


/-- C7: the constructor runs transactions.sort(...) which sorts the caller's
array in place and stores that same array: on an ascending two-element input
the caller's array afterwards is the reversed (date-descending) one, not the
original order, contradicting the stores-a-copy / never-mutates contract. -/
theorem c7_constructor_sorts_in_place :
    callerArrayAfterInit [txOldJan, txNewFeb] = [txNewFeb, txOldJan] ∧
    [txNewFeb, txOldJan] ≠ [txOldJan, txNewFeb] ∧
    (AnalyticsEngine.init [txOldJan, txNewFeb]).transactions =
      callerArrayAfterInit [txOldJan, txNewFeb] := by
  refine ⟨rfl, ?_, rfl⟩
  intro h
  have h2 := congrArg (fun l => (l.headD txOldJan).date.month) h
  simp [txNewFeb, txOldJan] at h2

/-- C8: getSpendingTrends returns exactly 6 points; their (year, month)
labels form the run of consecutive month indices ending at the current
month; the j-th point is the aggregation of the month 5 - j months back; and
every trendFor point aggregates income and expenses over exactly that
month's calendar window, with savings = income - expenses and with the
normalized label denoting the requested month. -/
theorem c8_spending_trends (txs : List Transaction) (now : SDate) :
    ((AnalyticsEngine.init txs).getSpendingTrends now).length = 6 ∧
    ((AnalyticsEngine.init txs).getSpendingTrends now).map
      (fun p => p.year * 12 + p.month) =
      [now.year * 12 + now.month - 5, now.year * 12 + now.month - 4,
       now.year * 12 + now.month - 3, now.year * 12 + now.month - 2,
       now.year * 12 + now.month - 1, now.year * 12 + now.month] ∧
    (∀ j : Fin 6,
      ((AnalyticsEngine.init txs).getSpendingTrends now)[(j : ℕ)]? =
        some (trendFor (AnalyticsEngine.init txs) now.year
          (now.month - (5 - ((j : ℕ) : ℤ))))) ∧
    (∀ (e : AnalyticsEngine) (y m : ℤ),
      (trendFor e y m).income =
        absSum ((e.getTransactionsInPeriod (mkDay y m 1)
          (mkDay y (m + 1) 0)).filter isIncome) ∧
      (trendFor e y m).expenses =
        absSum ((e.getTransactionsInPeriod (mkDay y m 1)
          (mkDay y (m + 1) 0)).filter isExpense) ∧
      (trendFor e y m).savings =
        (trendFor e y m).income - (trendFor e y m).expenses ∧
      (trendFor e y m).year * 12 + (trendFor e y m).month = y * 12 + m) := by
  refine ⟨rfl, ?_, ?_, ?_⟩
  · show (List.map (fun p => p.year * 12 + p.month)
      ((List.range 6).map (fun j => trendFor (AnalyticsEngine.init txs) now.year
        (now.month - (5 - (j : ℤ)))))) = _
    simp only [List.range_succ, List.range_zero, List.map_append, List.map_cons,
      List.map_nil, List.nil_append, List.cons_append, trendFor]
    norm_num
    omega
  · intro j
    fin_cases j <;> rfl
  · intro e y m
    refine ⟨rfl, rfl, rfl, ?_⟩
    show (y + m / 12) * 12 + m % 12 = y * 12 + m
    omega

/-! ## Lemmas: the financial health score -/

lemma healthFactors_names (e : AnalyticsEngine) (now : SDate) :
    (e.getFinancialHealthScore now).factors.map (fun f => f.name) =
      ["Savings Rate", "Spending Consistency", "Income Growth",
       "Expense Balance"] := rfl

lemma healthFactors_scores (e : AnalyticsEngine) (now : SDate) :
    (e.getFinancialHealthScore now).factors.map (fun f => f.score) =
      [((savingsScoreOf e now : ℚ) : ℝ), consistencyScoreOf e now,
       ((incomeGrowthScoreOf e now : ℚ) : ℝ),
       ((categoryBalanceOf e now : ℚ) : ℝ)] := rfl

lemma healthScore_score (e : AnalyticsEngine) (now : SDate) :
    (e.getFinancialHealthScore now).score =
      ⌊((savingsScoreOf e now : ℚ) : ℝ) * 0.3 +
        consistencyScoreOf e now * 0.25 +
        ((incomeGrowthScoreOf e now : ℚ) : ℝ) * 0.2 +
        ((categoryBalanceOf e now : ℚ) : ℝ) * 0.25 + 1 / 2⌋ := rfl

lemma calculateVariation_nonneg (values : List ℚ) :
    0 ≤ calculateVariation values := by
  simp only [calculateVariation]
  split_ifs with h1 h2
  · norm_num
  · apply mul_nonneg _ (by norm_num)
    apply div_nonneg (Real.sqrt_nonneg _)
    have h3 : (0 : ℚ) ≤ values.sum / (values.length : ℚ) := le_of_lt h2
    exact_mod_cast h3
  · norm_num

lemma savingsScoreOf_le (e : AnalyticsEngine) (now : SDate) :
    savingsScoreOf e now ≤ 100 :=
  min_le_right _ _

lemma consistencyScoreOf_bounds (e : AnalyticsEngine) (now : SDate) :
    0 ≤ consistencyScoreOf e now ∧ consistencyScoreOf e now ≤ 100 := by
  constructor
  · exact le_max_left 0 _
  · apply max_le (by norm_num)
    have := calculateVariation_nonneg
      (((e.getSpendingTrends now).map (fun t => t.expenses)))
    linarith

lemma incomeGrowthScoreOf_bounds (e : AnalyticsEngine) (now : SDate) :
    0 ≤ incomeGrowthScoreOf e now ∧ incomeGrowthScoreOf e now ≤ 100 := by
  constructor
  · exact le_min (le_max_right _ 0) (by norm_num)
  · exact min_le_right _ _

lemma calculateCategoryBalance_bounds (cs : List CategorySummary) :
    0 ≤ calculateCategoryBalance cs ∧ calculateCategoryBalance cs ≤ 100 := by
  cases cs with
  | nil =>
    constructor <;> norm_num [calculateCategoryBalance]
  | cons c rest =>
    simp only [calculateCategoryBalance]
    split_ifs <;> norm_num

/-! ## Lemmas: the empty transaction list -/

lemma cpa_empty_fields (n : String) (d : ℚ) :
    (calculatePeriodAnalytics [] n d).totalIncome = 0 ∧
    (calculatePeriodAnalytics [] n d).totalExpenses = 0 ∧
    (calculatePeriodAnalytics [] n d).netAmount = 0 ∧
    (calculatePeriodAnalytics [] n d).transactionCount = 0 ∧
    (calculatePeriodAnalytics [] n d).topCategories = [] ∧
    (calculatePeriodAnalytics [] n d).averageDaily = 0 ∧
    (calculatePeriodAnalytics [] n d).savingsRate = 0 := by
  refine ⟨rfl, rfl, ?_, rfl, rfl, ?_, ?_⟩
  · rw [cpa_netAmount]
    norm_num [absSum]
  · show absSum [] / d = 0
    norm_num [absSum]
  · rw [cpa_savingsRate]
    norm_num [absSum]

lemma savingsScoreOf_empty (now : SDate) :
    savingsScoreOf (AnalyticsEngine.init []) now = 0 := by
  unfold savingsScoreOf
  have h : ((AnalyticsEngine.init []).getMonthlyAnalytics now).savingsRate = 0 :=
    (cpa_empty_fields ("This Month") ((monthlyDays now : ℤ) : ℚ)).2.2.2.2.2.2
  rw [h]
  norm_num

lemma trends_empty_expenses (now : SDate) :
    ((AnalyticsEngine.init []).getSpendingTrends now).map (fun t => t.expenses) =
      [0, 0, 0, 0, 0, 0] := rfl

lemma variation_zero_list : calculateVariation [0, 0, 0, 0, 0, 0] = 0 := by
  norm_num [calculateVariation]

lemma consistencyScoreOf_empty (now : SDate) :
    consistencyScoreOf (AnalyticsEngine.init []) now = 100 := by
  unfold consistencyScoreOf
  rw [trends_empty_expenses, variation_zero_list]
  norm_num

lemma incomeGrowthScoreOf_empty (now : SDate) :
    incomeGrowthScoreOf (AnalyticsEngine.init []) now = 50 := by
  unfold incomeGrowthScoreOf
  have h : ((AnalyticsEngine.init []).getMonthlyComparison now).growth.income =
      calculateGrowth 0 0 := rfl
  rw [h]
  norm_num [calculateGrowth]

lemma categoryBalanceOf_empty (now : SDate) :
    categoryBalanceOf (AnalyticsEngine.init []) now = 100 := rfl

lemma health_empty_scores (now : SDate) :
    ((AnalyticsEngine.init []).getFinancialHealthScore now).factors.map
      (fun f => f.score) = [0, 100, 50, 100] := by
  rw [healthFactors_scores, savingsScoreOf_empty, consistencyScoreOf_empty,
    incomeGrowthScoreOf_empty, categoryBalanceOf_empty]
  norm_num

/-- C3 (amended): on the empty transaction list no operation fails and every
period query returns the all-zero summary with empty topCategories; the
health score's Expense Balance factor is 100 (no-categories branch) and the
Savings Rate factor is 0, but Spending Consistency is 100 (the zero-variation
guard) and Income Growth is 50 (the zero-growth baseline), giving an overall
score of 60. -/
theorem c3_empty_behavior (now : SDate) :
    (((AnalyticsEngine.init []).getWeeklyAnalytics now).totalIncome = 0 ∧
      ((AnalyticsEngine.init []).getWeeklyAnalytics now).totalExpenses = 0 ∧
      ((AnalyticsEngine.init []).getWeeklyAnalytics now).netAmount = 0 ∧
      ((AnalyticsEngine.init []).getWeeklyAnalytics now).transactionCount = 0 ∧
      ((AnalyticsEngine.init []).getWeeklyAnalytics now).topCategories = [] ∧
      ((AnalyticsEngine.init []).getWeeklyAnalytics now).averageDaily = 0 ∧
      ((AnalyticsEngine.init []).getWeeklyAnalytics now).savingsRate = 0) ∧
    (((AnalyticsEngine.init []).getMonthlyAnalytics now).totalIncome = 0 ∧
      ((AnalyticsEngine.init []).getMonthlyAnalytics now).totalExpenses = 0 ∧
      ((AnalyticsEngine.init []).getMonthlyAnalytics now).netAmount = 0 ∧
      ((AnalyticsEngine.init []).getMonthlyAnalytics now).transactionCount = 0 ∧
      ((AnalyticsEngine.init []).getMonthlyAnalytics now).topCategories = [] ∧
      ((AnalyticsEngine.init []).getMonthlyAnalytics now).averageDaily = 0 ∧
      ((AnalyticsEngine.init []).getMonthlyAnalytics now).savingsRate = 0) ∧
    (((AnalyticsEngine.init []).getHalfYearlyAnalytics now).totalIncome = 0 ∧
      ((AnalyticsEngine.init []).getHalfYearlyAnalytics now).totalExpenses = 0 ∧
      ((AnalyticsEngine.init []).getHalfYearlyAnalytics now).netAmount = 0 ∧
      ((AnalyticsEngine.init []).getHalfYearlyAnalytics now).transactionCount = 0 ∧
      ((AnalyticsEngine.init []).getHalfYearlyAnalytics now).topCategories = [] ∧
      ((AnalyticsEngine.init []).getHalfYearlyAnalytics now).averageDaily = 0 ∧
      ((AnalyticsEngine.init []).getHalfYearlyAnalytics now).savingsRate = 0) ∧
    (((AnalyticsEngine.init []).getAnnualAnalytics now).totalIncome = 0 ∧
      ((AnalyticsEngine.init []).getAnnualAnalytics now).totalExpenses = 0 ∧
      ((AnalyticsEngine.init []).getAnnualAnalytics now).netAmount = 0 ∧
      ((AnalyticsEngine.init []).getAnnualAnalytics now).transactionCount = 0 ∧
      ((AnalyticsEngine.init []).getAnnualAnalytics now).topCategories = [] ∧
      ((AnalyticsEngine.init []).getAnnualAnalytics now).averageDaily = 0 ∧
      ((AnalyticsEngine.init []).getAnnualAnalytics now).savingsRate = 0) ∧
    ((AnalyticsEngine.init []).getFinancialHealthScore now).factors.map
      (fun f => f.name) =
      ["Savings Rate", "Spending Consistency", "Income Growth",
       "Expense Balance"] ∧
    ((AnalyticsEngine.init []).getFinancialHealthScore now).factors.map
      (fun f => f.score) = [0, 100, 50, 100] ∧
    ((AnalyticsEngine.init []).getFinancialHealthScore now).score = 60 := by
  refine ⟨cpa_empty_fields _ _, cpa_empty_fields _ _, cpa_empty_fields _ _,
    cpa_empty_fields _ _, healthFactors_names _ _, health_empty_scores now, ?_⟩
  rw [healthScore_score, savingsScoreOf_empty, consistencyScoreOf_empty,
    incomeGrowthScoreOf_empty, categoryBalanceOf_empty]
  norm_num

/-- C3 counterexample: on the empty list with current date 2024-06-15 the
four factor sub-scores are [0, 100, 50, 100], not the claimed pattern of 0
for every factor other than Expense Balance: the Spending Consistency and
Income Growth sub-scores are 100 and 50, not 0. -/
theorem c3_counterexample :
    ((AnalyticsEngine.init []).getFinancialHealthScore ⟨2024, 5, 15⟩).factors.map
      (fun f => f.score) = [0, 100, 50, 100] ∧
    ¬ (((AnalyticsEngine.init []).getFinancialHealthScore ⟨2024, 5, 15⟩).factors.map
      (fun f => f.score) = [0, 0, 0, 100]) := by
  refine ⟨health_empty_scores ⟨2024, 5, 15⟩, ?_⟩
  intro h2
  rw [health_empty_scores ⟨2024, 5, 15⟩] at h2
  have h3 := congrArg (fun l => l.getD 1 0) h2
  norm_num [List.getD] at h3

/-- C2 (amended): getFinancialHealthScore returns the four named factors; the
Savings Rate sub-score is min(savingsRate*2, 100), which is at most 100 but
has no lower clamp (negative whenever the monthly savings rate is negative);
the other three sub-scores lie in [0, 100]; the overall score is exactly
round(savings*0.30 + consistency*0.25 + growth*0.20 + balance*0.25) and is at
most 100, but can be negative. -/
theorem c2_health_score_bounds (txs : List Transaction) (now : SDate) :
    ((AnalyticsEngine.init txs).getFinancialHealthScore now).factors.map
      (fun f => f.name) =
      ["Savings Rate", "Spending Consistency", "Income Growth",
       "Expense Balance"] ∧
    ((AnalyticsEngine.init txs).getFinancialHealthScore now).factors.map
      (fun f => f.score) =
      [((savingsScoreOf (AnalyticsEngine.init txs) now : ℚ) : ℝ),
       consistencyScoreOf (AnalyticsEngine.init txs) now,
       ((incomeGrowthScoreOf (AnalyticsEngine.init txs) now : ℚ) : ℝ),
       ((categoryBalanceOf (AnalyticsEngine.init txs) now : ℚ) : ℝ)] ∧
    ((AnalyticsEngine.init txs).getFinancialHealthScore now).score =
      ⌊((savingsScoreOf (AnalyticsEngine.init txs) now : ℚ) : ℝ) * 0.3 +
        consistencyScoreOf (AnalyticsEngine.init txs) now * 0.25 +
        ((incomeGrowthScoreOf (AnalyticsEngine.init txs) now : ℚ) : ℝ) * 0.2 +
        ((categoryBalanceOf (AnalyticsEngine.init txs) now : ℚ) : ℝ) * 0.25 +
        1 / 2⌋ ∧
    savingsScoreOf (AnalyticsEngine.init txs) now =
      min (((AnalyticsEngine.init txs).getMonthlyAnalytics now).savingsRate * 2)
        100 ∧
    savingsScoreOf (AnalyticsEngine.init txs) now ≤ 100 ∧
    0 ≤ consistencyScoreOf (AnalyticsEngine.init txs) now ∧
    consistencyScoreOf (AnalyticsEngine.init txs) now ≤ 100 ∧
    0 ≤ incomeGrowthScoreOf (AnalyticsEngine.init txs) now ∧
    incomeGrowthScoreOf (AnalyticsEngine.init txs) now ≤ 100 ∧
    0 ≤ categoryBalanceOf (AnalyticsEngine.init txs) now ∧
    categoryBalanceOf (AnalyticsEngine.init txs) now ≤ 100 ∧
    ((AnalyticsEngine.init txs).getFinancialHealthScore now).score ≤ 100 := by
  refine ⟨healthFactors_names _ _, healthFactors_scores _ _,
    healthScore_score _ _, rfl, savingsScoreOf_le _ _,
    (consistencyScoreOf_bounds _ _).1, (consistencyScoreOf_bounds _ _).2,
    (incomeGrowthScoreOf_bounds _ _).1, (incomeGrowthScoreOf_bounds _ _).2,
    (calculateCategoryBalance_bounds _).1, (calculateCategoryBalance_bounds _).2,
    ?_⟩
  rw [healthScore_score]
  have h1 : ((savingsScoreOf (AnalyticsEngine.init txs) now : ℚ) : ℝ) ≤ 100 := by
    exact_mod_cast savingsScoreOf_le (AnalyticsEngine.init txs) now
  have h2 : consistencyScoreOf (AnalyticsEngine.init txs) now ≤ 100 :=
    (consistencyScoreOf_bounds _ _).2
  have h3 : ((incomeGrowthScoreOf (AnalyticsEngine.init txs) now : ℚ) : ℝ) ≤ 100 := by
    exact_mod_cast (incomeGrowthScoreOf_bounds (AnalyticsEngine.init txs) now).2
  have h4 : ((categoryBalanceOf (AnalyticsEngine.init txs) now : ℚ) : ℝ) ≤ 100 := by
    exact_mod_cast (calculateCategoryBalance_bounds
      ((AnalyticsEngine.init txs).getMonthlyAnalytics now).topCategories).2
  have hT : ((savingsScoreOf (AnalyticsEngine.init txs) now : ℚ) : ℝ) * 0.3 +
      consistencyScoreOf (AnalyticsEngine.init txs) now * 0.25 +
      ((incomeGrowthScoreOf (AnalyticsEngine.init txs) now : ℚ) : ℝ) * 0.2 +
      ((categoryBalanceOf (AnalyticsEngine.init txs) now : ℚ) : ℝ) * 0.25 +
      1 / 2 ≤ (100 : ℝ) + 1 / 2 := by
    nlinarith [h1, h2, h3, h4]
  calc ⌊((savingsScoreOf (AnalyticsEngine.init txs) now : ℚ) : ℝ) * 0.3 +
      consistencyScoreOf (AnalyticsEngine.init txs) now * 0.25 +
      ((incomeGrowthScoreOf (AnalyticsEngine.init txs) now : ℚ) : ℝ) * 0.2 +
      ((categoryBalanceOf (AnalyticsEngine.init txs) now : ℚ) : ℝ) * 0.25 + 1 / 2⌋ ≤
      ⌊(100 : ℝ) + 1 / 2⌋ := Int.floor_le_floor hT
    _ = 100 := by norm_num

lemma cx_savingsRate :
    ((AnalyticsEngine.init cxTxs).getMonthlyAnalytics ⟨2024, 5, 15⟩).savingsRate =
      -200 := by
  show (if absSum [cxJunI] > 0
    then (absSum [cxJunI] - absSum [cxJunE]) / absSum [cxJunI] * 100
    else 0) = -200
  norm_num [absSum, cxJunI, cxJunE]

lemma cx_savingsScore :
    savingsScoreOf (AnalyticsEngine.init cxTxs) ⟨2024, 5, 15⟩ = -400 := by
  unfold savingsScoreOf
  rw [cx_savingsRate]
  norm_num [min_def]

lemma cx_trends300 :
    ((AnalyticsEngine.init cxTxs).getSpendingTrends ⟨2024, 5, 15⟩).map
      (fun t => t.expenses) = [300, 300, 300, 300, 300, 300] := by
  show [absSum [cxJanE], absSum [cxFebE], absSum [cxMarE], absSum [cxAprE],
    absSum [cxMayE], absSum [cxJunE]] = [300, 300, 300, 300, 300, 300]
  norm_num [absSum, cxJanE, cxFebE, cxMarE, cxAprE, cxMayE, cxJunE]

lemma variation_const300 :
    calculateVariation [300, 300, 300, 300, 300, 300] = 0 := by
  norm_num [calculateVariation]

lemma cx_consistency :
    consistencyScoreOf (AnalyticsEngine.init cxTxs) ⟨2024, 5, 15⟩ = 100 := by
  unfold consistencyScoreOf
  rw [cx_trends300, variation_const300]
  norm_num

lemma cx_growthIncome :
    ((AnalyticsEngine.init cxTxs).getMonthlyComparison ⟨2024, 5, 15⟩).growth.income =
      100 := by
  show calculateGrowth (absSum [cxJunI]) (absSum []) = 100
  norm_num [calculateGrowth, absSum, cxJunI]

lemma cx_growthScore :
    incomeGrowthScoreOf (AnalyticsEngine.init cxTxs) ⟨2024, 5, 15⟩ = 100 := by
  unfold incomeGrowthScoreOf
  rw [cx_growthIncome]
  norm_num [max_def, min_def]

lemma cx_balance :
    categoryBalanceOf (AnalyticsEngine.init cxTxs) ⟨2024, 5, 15⟩ = 30 := by
  unfold categoryBalanceOf
  have htc : ((AnalyticsEngine.init cxTxs).getMonthlyAnalytics
      ⟨2024, 5, 15⟩).topCategories =
      [⟨"Food", |(300 : ℚ)|, 1,
        if absSum [cxJunE] > 0 then |(300 : ℚ)| / absSum [cxJunE] * 100 else 0⟩] :=
    rfl
  rw [htc]
  norm_num [calculateCategoryBalance, absSum, cxJunE]

/-- C2 counterexample: on six months of constant 300 expenses with a single
June income of 100 (savings rate -200%) and current date 2024-06-15, the
factor sub-scores are [-400, 100, 100, 30] -- the Savings Rate sub-score is
-400, outside [0, 100] -- and the overall score is -67, also outside
[0, 100]. -/
theorem c2_counterexample :
    ((AnalyticsEngine.init cxTxs).getFinancialHealthScore ⟨2024, 5, 15⟩).factors.map
      (fun f => f.score) = [-400, 100, 100, 30] ∧
    ¬ (∀ s ∈ ((AnalyticsEngine.init cxTxs).getFinancialHealthScore
        ⟨2024, 5, 15⟩).factors.map (fun f => f.score), 0 ≤ s ∧ s ≤ 100) ∧
    ((AnalyticsEngine.init cxTxs).getFinancialHealthScore ⟨2024, 5, 15⟩).score =
      -67 ∧
    ¬ (0 ≤ ((AnalyticsEngine.init cxTxs).getFinancialHealthScore
        ⟨2024, 5, 15⟩).score) := by
  have hs : ((AnalyticsEngine.init cxTxs).getFinancialHealthScore
      ⟨2024, 5, 15⟩).factors.map (fun f => f.score) = [-400, 100, 100, 30] := by
    rw [healthFactors_scores, cx_savingsScore, cx_consistency, cx_growthScore,
      cx_balance]
    norm_num
  have hsc : ((AnalyticsEngine.init cxTxs).getFinancialHealthScore
      ⟨2024, 5, 15⟩).score = -67 := by
    rw [healthScore_score, cx_savingsScore, cx_consistency, cx_growthScore,
      cx_balance]
    push_cast
    norm_num
  refine ⟨hs, ?_, hsc, ?_⟩
  · intro hall
    have h4 := hall (-400) (by rw [hs]; simp)
    linarith [h4.1]
  · rw [hsc]
    norm_num
